import Mathlib

set_option maxHeartbeats 1000000
set_option maxRecDepth 100000

/-!
Verification development for the script-engine lifecycle manager of
`src/server/include/CScriptEngine.h`.  Entities and compiled-script handles
are opaque pointers in the source; here they are identities (`Nat`).
`std::unordered_map` fields are embedded as association lists with the
unique-key invariant stated explicitly, `std::unordered_set` fields as
`Finset`.
-/

namespace GServer

/-- Identity of an `IScriptFunction` handle (an opaque compiled callable). -/
abbrev IScriptFunction := Nat

/-- Identity of a `TNPC` entity. -/
abbrev TNPC := Nat

/-- Identity of a `TWeapon` entity. -/
abbrev TWeapon := Nat

/-- State of a `CScriptEngine`, mirroring its private fields
(`CScriptEngine.h` lines 76-96): `_callbacks` (an `unordered_map`, embedded
as an association list), `_deletedFunctions`, the three periodic registries
`_updateNpcs` / `_updateNpcsTimer` / `_updateWeapons`, the execution-bracket
pair `_scriptIsRunning` / `_scriptStartTime`, and the script environment's
last-error view exposed by `getScriptError`. -/
structure EngineState where
  callbacks : List (String × IScriptFunction)
  deletedFunctions : Finset IScriptFunction
  updateNpcs : Finset TNPC
  updateNpcsTimer : Finset TNPC
  updateWeapons : Finset TWeapon
  scriptIsRunning : Bool
  scriptStartTime : Nat
  scriptError : String
deriving DecidableEq

/-- Embeds `CScriptEngine::getCallBack` (lines 129-135): look `callback` up in
`_callbacks`, returning the mapped function, or `none` for `nullptr`. -/
def getCallBack (st : EngineState) (callback : String) : Option IScriptFunction :=
  (st.callbacks.find? (fun e => e.1 == callback)).map (fun e => e.2)

/-- Embeds `CScriptEngine::removeCallBack` (lines 142-149): if `callback` has
an entry, insert its function into `_deletedFunctions` and erase the entry. -/
def removeCallBack (st : EngineState) (callback : String) : EngineState :=
  match st.callbacks.find? (fun e => e.1 == callback) with
  | some e =>
      { st with
        deletedFunctions := insert e.2 st.deletedFunctions,
        callbacks := st.callbacks.eraseP (fun x => x.1 == callback) }
  | none => st

/-- Embeds `unordered_map::operator[]` followed by assignment: replace the
value at key `k` when present, otherwise insert a fresh entry. -/
def mapAssign (l : List (String × IScriptFunction)) (k : String) (v : IScriptFunction) :
    List (String × IScriptFunction) :=
  if l.any (fun e => e.1 == k) then
    l.map (fun e => if e.1 == k then (k, v) else e)
  else l ++ [(k, v)]

/-- Embeds `CScriptEngine::setCallBack` (lines 151-154): `removeCallBack`
first, then `_callbacks[callback] = cbFunc`. -/
def setCallBack (st : EngineState) (callback : String) (cbFunc : IScriptFunction) : EngineState :=
  let st1 := removeCallBack st callback
  { st1 with callbacks := mapAssign st1.callbacks callback cbFunc }

/-- Embeds `CScriptEngine::RegisterNpcTimer` (lines 158-160):
`_updateNpcsTimer.insert(npc)`. -/
def RegisterNpcTimer (st : EngineState) (npc : TNPC) : EngineState :=
  { st with updateNpcsTimer := insert npc st.updateNpcsTimer }

/-- Embeds `CScriptEngine::RegisterNpcUpdate` (lines 162-164):
`_updateNpcs.insert(npc)`. -/
def RegisterNpcUpdate (st : EngineState) (npc : TNPC) : EngineState :=
  { st with updateNpcs := insert npc st.updateNpcs }

/-- Embeds `CScriptEngine::RegisterWeaponUpdate` (lines 166-168):
`_updateWeapons.insert(weapon)`. -/
def RegisterWeaponUpdate (st : EngineState) (weapon : TWeapon) : EngineState :=
  { st with updateWeapons := insert weapon st.updateWeapons }

/-- Embeds `CScriptEngine::UnregisterNpcTimer` (lines 180-182):
`_updateNpcsTimer.erase(npc)`. -/
def UnregisterNpcTimer (st : EngineState) (npc : TNPC) : EngineState :=
  { st with updateNpcsTimer := st.updateNpcsTimer.erase npc }

/-- Embeds `CScriptEngine::UnregisterNpcUpdate` (lines 176-178):
`_updateNpcs.erase(npc)`. -/
def UnregisterNpcUpdate (st : EngineState) (npc : TNPC) : EngineState :=
  { st with updateNpcs := st.updateNpcs.erase npc }

/-- Embeds `CScriptEngine::UnregisterWeaponUpdate` (lines 172-174):
`_updateWeapons.erase(weapon)`. -/
def UnregisterWeaponUpdate (st : EngineState) (weapon : TWeapon) : EngineState :=
  { st with updateWeapons := st.updateWeapons.erase weapon }

/-- Embeds `CScriptEngine::StartScriptExecution` (lines 98-105) as a
sequential state update: `_scriptStartTime = startTime` then
`_scriptIsRunning.store(true)`.  The instruction-level ordering and lock
placement of the same function are embedded separately as
`StartScriptExecutionOps`. -/
def StartScriptExecution (st : EngineState) (startTime : Nat) : EngineState :=
  { st with scriptStartTime := startTime, scriptIsRunning := true }

/-- Embeds `CScriptEngine::StopScriptExecution` (lines 107-113):
`res = _scriptIsRunning.load(); if (res) _scriptIsRunning.store(false);
return res;`.  Returns the C++ return value paired with the post-state. -/
def StopScriptExecution (st : EngineState) : Bool × EngineState :=
  let res := st.scriptIsRunning
  if res then (res, { st with scriptIsRunning := false }) else (res, st)

/-- Embeds the `ScriptAction` value built by `CreateAction` (line 207):
the resolved callback, an opaque arguments-bundle identity, and the name. -/
structure ScriptAction where
  func : IScriptFunction
  args : Nat
  action : String
deriving DecidableEq

/-- Embeds `CScriptEngine::CreateAction` (lines 186-209): `assert(Argc > 0)`
first (the `.error` branch embeds an assertion violation), then a lookup in
`_callbacks`; an unregistered name yields `nullptr` (`none`) and the engine
state is left untouched. -/
def CreateAction (st : EngineState) (action : String) (argc : Nat) (argsBundle : Nat) :
    Except String (Option ScriptAction × EngineState) :=
  if 0 < argc then
    match st.callbacks.find? (fun e => e.1 == action) with
    | none => Except.ok (none, st)
    | some e => Except.ok (some ⟨e.2, argsBundle, action⟩, st)
  else Except.error "assertion failed: Argc > 0"

/-- Checks whether the character list `pat` is an initial segment of `s`. -/
def charsStartWith : List Char → List Char → Bool
  | [], _ => true
  | _ :: _, [] => false
  | p :: ps, c :: cs => p == c && charsStartWith ps cs

/-- Checks whether the character list `pat` occurs contiguously in `s`. -/
def charsContain (pat : List Char) : List Char → Bool
  | [] => pat.isEmpty
  | c :: cs => charsStartWith pat (c :: cs) || charsContain pat cs

/-- Checks whether string `pat` occurs as a contiguous substring of `s`. -/
def strContains (s pat : String) : Bool :=
  charsContain pat.data s.data

/-- Entity kinds for which `CScriptEngine::WrapScript<T>` is instantiated:
the three explicit specializations `TNPC`, `TPlayer`, `TWeapon`
(lines 229-278) and the generic template (lines 224-227). -/
inductive EntityKind where
  | npc
  | player
  | weapon
  | generic
deriving DecidableEq

/-- Embeds the `prefixString` of `WrapScript<TNPC>` (lines 233-245), one
`++` operand per C++ string-literal fragment. -/
def npcPrologue : String :=
  "(function(npc) \x7b" ++
  "var onCreated, onTimeout, onNpcWarped, onPlayerChats, onPlayerEnters, onPlayerLeaves, onPlayerTouchsMe, onPlayerLogin, onPlayerLogout;" ++
  "const self = npc;" ++
  "if (onCreated) self.onCreated = onCreated;" ++
  "if (onTimeout) self.onTimeout = onTimeout;" ++
  "if (onNpcWarped) self.onNpcWarped = onNpcWarped;" ++
  "if (onPlayerChats) self.onPlayerChats = onPlayerChats;" ++
  "if (onPlayerEnters) self.onPlayerEnters = onPlayerEnters;" ++
  "if (onPlayerLeaves) self.onPlayerLeaves = onPlayerLeaves;" ++
  "if (onPlayerTouchsMe) self.onPlayerTouchsMe = onPlayerTouchsMe;" ++
  "if (onPlayerLogin) self.onPlayerLogin = onPlayerLogin;" ++
  "if (onPlayerLogout) self.onPlayerLogout = onPlayerLogout;" ++
  "\n"

/-- Embeds the `prefixString` of `WrapScript<TPlayer>` (lines 256-257). -/
def playerPrologue : String :=
  "(function(player) \x7b" ++
  "const self = player;\n"

/-- Embeds the `prefixString` of `WrapScript<TWeapon>` (lines 268-272). -/
def weaponPrologue : String :=
  "(function(weapon) \x7b" ++
  "var onCreated, onActionServerSide;" ++
  "const self = weapon;" ++
  "self.onCreated = onCreated;" ++
  "self.onActionServerSide = onActionServerSide;\n"

/-- Embeds the epilogue appended by every specialization of `WrapScript`
(lines 249, 261, 276): `wrappedCode.append("\n\x7d);")`. -/
def wrapEpilogue : String := "\n\x7d);"

/-- Embeds `CScriptEngine::WrapScript<T>` (lines 224-278): each explicit
specialization builds `prefixString`, appends `code`, appends the epilogue;
the generic template returns `code` unchanged. -/
def WrapScript : EntityKind → String → String
  | EntityKind.npc, code => npcPrologue ++ code ++ wrapEpilogue
  | EntityKind.player, code => playerPrologue ++ code ++ wrapEpilogue
  | EntityKind.weapon, code => weaponPrologue ++ code ++ wrapEpilogue
  | EntityKind.generic, code => code

/-- Event-handler names declared as `var` local bindings by the prologue of
each wrapping specialization (lines 234 and 269); the `TPlayer` wrapping
declares none. -/
def declaredHandlers : EntityKind → List String
  | EntityKind.npc =>
      ["onCreated", "onTimeout", "onNpcWarped", "onPlayerChats", "onPlayerEnters",
       "onPlayerLeaves", "onPlayerTouchsMe", "onPlayerLogin", "onPlayerLogout"]
  | EntityKind.weapon => ["onCreated", "onActionServerSide"]
  | _ => []

/-- Holds when `prologue` assigns handler `h` onto the entity guarded by a
definedness test, in the style `if (h) self.h = h;`. -/
def conditionallyAssigns (prologue h : String) : Bool :=
  strContains prologue ("if (" ++ h ++ ") self." ++ h ++ " = " ++ h ++ ";")

/-- Holds when `prologue` contains an assignment `self.h = h;` at all. -/
def assignsHandler (prologue h : String) : Bool :=
  strContains prologue ("self." ++ h ++ " = " ++ h ++ ";")

end GServer


namespace GServer

/-- Atomic steps performed by `StartScriptExecution` (lines 98-105), at the
granularity the watchdog thread can observe: mutex acquisition and release
(the `lock_guard` on `_scriptWatcherLock`), the write of `_scriptStartTime`,
and the atomic store to `_scriptIsRunning`. -/
inductive BracketOp where
  | lockAcquire
  | lockRelease
  | writeStartTime
  | storeRunning (b : Bool)
deriving DecidableEq

/-- Embeds `CScriptEngine::StartScriptExecution` (lines 98-105) as its
sequence of observable steps: the `lock_guard` block covers only
`_scriptStartTime = startTime`; `_scriptIsRunning.store(true)` executes
after the guard's scope ends. -/
def StartScriptExecutionOps : List BracketOp :=
  [BracketOp.lockAcquire, BracketOp.writeStartTime, BracketOp.lockRelease,
   BracketOp.storeRunning true]

/-- Steps of an op sequence lying strictly inside the first critical
section: after the first `lockAcquire` and before the next `lockRelease`. -/
def criticalSectionOps (ops : List BracketOp) : List BracketOp :=
  ((ops.dropWhile (fun o => !(o == BracketOp.lockAcquire))).drop 1).takeWhile
    (fun o => !(o == BracketOp.lockRelease))

/-- Shared state of the execution bracket as the watchdog sees it:
`(_scriptStartTime, _scriptIsRunning)`. -/
structure BracketState where
  scriptStartTime : Nat
  scriptIsRunning : Bool
deriving DecidableEq

/-- Effect of one bracket step on the shared pair, where `newTime` is the
value passed to `StartScriptExecution`; lock steps do not change data. -/
def execBracketOp (newTime : Nat) (st : BracketState) : BracketOp → BracketState
  | BracketOp.writeStartTime => { st with scriptStartTime := newTime }
  | BracketOp.storeRunning b => { st with scriptIsRunning := b }
  | _ => st

/-- Runs a sequence of bracket steps from `st`.  Under sequential
consistency, the states the watchdog can observe while the worker runs
`StartScriptExecutionOps` are exactly the states after each prefix. -/
def execBracketOps (newTime : Nat) (st : BracketState) (ops : List BracketOp) : BracketState :=
  ops.foldl (execBracketOp newTime) st

/-- Modelled from the spec: the body of `CScriptEngine::CompileCache` is not
under `src/` (only its declaration, `CScriptEngine.h` line 62, and the cache
field `_cachedScripts`, line 90).  Spec section 4.1: the cache maps source
text to a reference-counted CompiledUnit; `compilerCalls` counts hand-offs
to the script environment's compiler and `nextUnit` supplies fresh unit
identities. -/
structure CacheState where
  cache : List (String × IScriptFunction × Nat)
  compilerCalls : Nat
  nextUnit : Nat
deriving DecidableEq

/-- Increments the reference count of the cache entries keyed `source`. -/
def incRefCount (l : List (String × IScriptFunction × Nat)) (source : String) :
    List (String × IScriptFunction × Nat) :=
  l.map (fun e => if e.1 == source then (e.1, e.2.1, e.2.2 + 1) else e)

/-- Modelled from the spec: `CScriptEngine::CompileCache` itself is not under
`src/`.  Spec section 4.1: with caching requested and `source` already
cached, increment its reference count and return the existing unit without
compiling; otherwise hand `source` to the compiler (`ok` is the script
environment's verdict, `none` embeds a compile error that is never cached);
on success cache with reference count 1 when requested. -/
def CompileCache (ok : String → Bool) (st : CacheState) (source : String)
    (shouldCache : Bool) : Option IScriptFunction × CacheState :=
  match shouldCache, st.cache.find? (fun e => e.1 == source) with
  | true, some e => (some e.2.1, { st with cache := incRefCount st.cache source })
  | true, none =>
      if ok source then
        (some st.nextUnit,
         { cache := st.cache ++ [(source, st.nextUnit, 1)],
           compilerCalls := st.compilerCalls + 1,
           nextUnit := st.nextUnit + 1 })
      else (none, { st with compilerCalls := st.compilerCalls + 1 })
  | false, _ =>
      if ok source then
        (some st.nextUnit,
         { cache := st.cache,
           compilerCalls := st.compilerCalls + 1,
           nextUnit := st.nextUnit + 1 })
      else (none, { st with compilerCalls := st.compilerCalls + 1 })

/-- Modelled from the spec: the bodies of `CScriptEngine::ExecuteNpc` and
`ExecuteWeapon` are not under `src/` (declarations, lines 45-46).  Spec
section 4.5: wrap open bracket, call the handler resolved through
`getCallBack`, close bracket; return false when no handler is registered
(state untouched) or when the call failed; `invoke` is the external script
environment (success flag and error text), `t` the bracket start time. -/
def ExecuteEvent (invoke : IScriptFunction → Bool × String) (t : Nat)
    (st : EngineState) (event : String) : Bool × EngineState :=
  match getCallBack st event with
  | none => (false, st)
  | some f =>
      let st1 := StartScriptExecution st t
      let r := invoke f
      let st2 := (StopScriptExecution st1).2
      if r.1 then (true, st2) else (false, { st2 with scriptError := r.2 })

/-- Modelled from the spec: `ExecuteNpc` resolves the NPC's handler by event
name through the callback registry and runs it bracketed (section 4.5). -/
def ExecuteNpc (invoke : IScriptFunction → Bool × String) (t : Nat)
    (st : EngineState) (event : String) : Bool × EngineState :=
  ExecuteEvent invoke t st event

/-- Modelled from the spec: `ExecuteWeapon` resolves the weapon's handler by
event name through the callback registry and runs it bracketed
(section 4.5). -/
def ExecuteWeapon (invoke : IScriptFunction → Bool × String) (t : Nat)
    (st : EngineState) (event : String) : Bool × EngineState :=
  ExecuteEvent invoke t st event

/-- Modelled from the spec: the body of `CScriptEngine::RunScripts` is not
under `src/` (declaration, line 35).  Spec section 4.3: a pass iterates each
periodic registry and invokes the handler of every member, so the handlers
invoked during a pass are exactly the members of the three registries when
the pass starts. -/
structure InvokedHandlers where
  timerNpcs : Finset TNPC
  updatedNpcs : Finset TNPC
  updatedWeapons : Finset TWeapon

/-- Modelled from the spec: the sets of entities whose handlers a
`RunScripts` pass started in state `st` invokes (section 4.3). -/
def RunScriptsInvoked (st : EngineState) : InvokedHandlers :=
  ⟨st.updateNpcsTimer, st.updateNpcs, st.updateWeapons⟩

end GServer

namespace GServer

theorem find?_eraseP_of_nodup_keys (l : List (String × IScriptFunction)) (n : String)
    (h : (l.map Prod.fst).Nodup) :
    (l.eraseP (fun e => e.1 == n)).find? (fun e => e.1 == n) = none := by
  induction l with
  | nil => rfl
  | cons e l ih =>
    simp only [List.map_cons, List.nodup_cons] at h
    by_cases he : e.1 = n
    · rw [List.eraseP_cons_of_pos (by simp [he])]
      rw [List.find?_eq_none]
      intro x hx hpx
      exact h.1 (he ▸ ((by simpa using hpx : x.1 = n) ▸ List.mem_map_of_mem Prod.fst hx))
    · rw [List.eraseP_cons_of_neg (by simp [he])]
      rw [List.find?_cons_of_neg _ (by simp [he])]
      exact ih h.2

theorem countP_key_le_one_of_nodup (l : List (String × IScriptFunction)) (m : String)
    (h : (l.map Prod.fst).Nodup) : l.countP (fun e => e.1 == m) ≤ 1 := by
  induction l with
  | nil => simp
  | cons e l ih =>
    simp only [List.map_cons, List.nodup_cons] at h
    by_cases he : e.1 = m
    · rw [List.countP_cons_of_pos _ _ (by simp [he])]
      have hz : l.countP (fun x => x.1 == m) = 0 := by
        rw [List.countP_eq_zero]
        intro a ha hpa
        exact h.1 (he ▸ ((by simpa using hpa : a.1 = m) ▸ List.mem_map_of_mem Prod.fst ha))
      omega
    · rw [List.countP_cons_of_neg _ _ (by simp [he])]
      exact ih h.2

theorem find?_removeCallBack (st : EngineState) (n : String)
    (h : (st.callbacks.map Prod.fst).Nodup) :
    (removeCallBack st n).callbacks.find? (fun e => e.1 == n) = none := by
  unfold removeCallBack
  cases hf : st.callbacks.find? (fun e => e.1 == n) with
  | none => exact hf
  | some e => exact find?_eraseP_of_nodup_keys st.callbacks n h

theorem nodup_keys_removeCallBack (st : EngineState) (n : String)
    (h : (st.callbacks.map Prod.fst).Nodup) :
    ((removeCallBack st n).callbacks.map Prod.fst).Nodup := by
  unfold removeCallBack
  cases hf : st.callbacks.find? (fun e => e.1 == n) with
  | none => exact h
  | some e =>
    exact List.Nodup.sublist ((List.eraseP_sublist st.callbacks).map Prod.fst) h

theorem callbacks_setCallBack (st : EngineState) (n : String) (f : IScriptFunction)
    (h : (st.callbacks.map Prod.fst).Nodup) :
    (setCallBack st n f).callbacks = (removeCallBack st n).callbacks ++ [(n, f)] := by
  have hnone := find?_removeCallBack st n h
  rw [List.find?_eq_none] at hnone
  have hany : (removeCallBack st n).callbacks.any (fun e => e.1 == n) = false := by
    rw [List.any_eq_false]
    exact hnone
  unfold setCallBack mapAssign
  simp only [hany]
  rfl

theorem getCallBack_setCallBack (st : EngineState) (n : String) (f : IScriptFunction)
    (h : (st.callbacks.map Prod.fst).Nodup) :
    getCallBack (setCallBack st n f) n = some f := by
  unfold getCallBack
  rw [callbacks_setCallBack st n f h, List.find?_append, find?_removeCallBack st n h]
  simp

theorem deletedFunctions_setCallBack (st : EngineState) (n : String) (f : IScriptFunction) :
    (setCallBack st n f).deletedFunctions = (removeCallBack st n).deletedFunctions := rfl

theorem deleted_of_getCallBack_some (st : EngineState) (n : String) (g : IScriptFunction)
    (h : getCallBack st n = some g) :
    g ∈ (removeCallBack st n).deletedFunctions := by
  unfold getCallBack at h
  unfold removeCallBack
  cases hf : st.callbacks.find? (fun e => e.1 == n) with
  | none => rw [hf] at h; simp at h
  | some e =>
    rw [hf] at h
    simp only [Option.map_some'] at h
    rw [← Option.some_inj.mp h]
    exact Finset.mem_insert_self e.2 _

theorem nodup_keys_setCallBack (st : EngineState) (n : String) (f : IScriptFunction)
    (h : (st.callbacks.map Prod.fst).Nodup) :
    ((setCallBack st n f).callbacks.map Prod.fst).Nodup := by
  rw [callbacks_setCallBack st n f h, List.map_append]
  rw [List.nodup_append]
  refine ⟨nodup_keys_removeCallBack st n h, by simp, ?_⟩
  intro a ha hb
  simp only [List.map_cons, List.map_nil, List.mem_singleton] at hb
  have hnone := find?_removeCallBack st n h
  rw [List.find?_eq_none] at hnone
  obtain ⟨e, he, hfst⟩ := List.mem_map.mp ha
  exact hnone e he (by simp [hfst, hb])

end GServer

namespace GServer

/-- Concrete engine state used to instantiate theorems carrying
hypotheses: one registered callback and one entity in each registry. -/
def sampleState : EngineState :=
  { callbacks := [("onCreated", 5)],
    deletedFunctions := ∅,
    updateNpcs := {1},
    updateNpcsTimer := {1},
    updateWeapons := {1},
    scriptIsRunning := false,
    scriptStartTime := 0,
    scriptError := "" }

/-- Claim C2: for every event name, at most one unit is registered at any
instant; `setCallBack` first removes any existing entry for the name, moving
the removed unit into the pending-deletion set `_deletedFunctions` rather
than destroying it, and then installs the new unit so `getCallBack` returns
it. -/
theorem setCallBack_single_slot (st : EngineState) (n : String) (f : IScriptFunction)
    (h : (st.callbacks.map Prod.fst).Nodup) :
    getCallBack (setCallBack st n f) n = some f ∧
    (∀ m : String, (setCallBack st n f).callbacks.countP (fun e => e.1 == m) ≤ 1) ∧
    (∀ g : IScriptFunction, getCallBack st n = some g →
      g ∈ (setCallBack st n f).deletedFunctions) := by
  refine ⟨getCallBack_setCallBack st n f h, ?_, ?_⟩
  · intro m
    exact countP_key_le_one_of_nodup _ m (nodup_keys_setCallBack st n f h)
  · intro g hg
    rw [deletedFunctions_setCallBack]
    exact deleted_of_getCallBack_some st n g hg

/-- Witness for C2 at a concrete state: replacing the `onCreated` callback
installs the new unit, keeps every name single-slot, and moves the old unit
into the pending-deletion set. -/
theorem setCallBack_single_slot_witness :
    getCallBack (setCallBack sampleState "onCreated" 7) "onCreated" = some 7 ∧
    (∀ m : String, (setCallBack sampleState "onCreated" 7).callbacks.countP
      (fun e => e.1 == m) ≤ 1) ∧
    (∀ g : IScriptFunction, getCallBack sampleState "onCreated" = some g →
      g ∈ (setCallBack sampleState "onCreated" 7).deletedFunctions) :=
  setCallBack_single_slot sampleState "onCreated" 7 (by decide)

/-- Claim C9: re-registering for an event the very unit that is already
registered for it leaves that unit both reachable through `getCallBack` and
a member of the pending-deletion set `_deletedFunctions`. -/
theorem setCallBack_same_unit_live_and_deleted (st : EngineState) (n : String)
    (f : IScriptFunction) (hn : (st.callbacks.map Prod.fst).Nodup)
    (h : getCallBack st n = some f) :
    getCallBack (setCallBack st n f) n = some f ∧
    f ∈ (setCallBack st n f).deletedFunctions :=
  ⟨getCallBack_setCallBack st n f hn,
   deletedFunctions_setCallBack st n f ▸ deleted_of_getCallBack_some st n f h⟩

/-- Witness for C9 at a concrete state: re-registering unit 5 for
`onCreated` leaves 5 both live and pending deletion. -/
theorem setCallBack_same_unit_live_and_deleted_witness :
    getCallBack (setCallBack sampleState "onCreated" 5) "onCreated" = some 5 ∧
    5 ∈ (setCallBack sampleState "onCreated" 5).deletedFunctions :=
  setCallBack_same_unit_live_and_deleted sampleState "onCreated" 5 (by decide) (by decide)

/-- Claim C8: for every entity and every periodic registry, registering an
already-present entity and unregistering an absent one are no-ops on the
whole engine state. -/
theorem register_unregister_idempotent (st : EngineState) (a b c d : TNPC)
    (e g : TWeapon) :
    (a ∈ st.updateNpcsTimer → RegisterNpcTimer st a = st) ∧
    (b ∉ st.updateNpcsTimer → UnregisterNpcTimer st b = st) ∧
    (c ∈ st.updateNpcs → RegisterNpcUpdate st c = st) ∧
    (d ∉ st.updateNpcs → UnregisterNpcUpdate st d = st) ∧
    (e ∈ st.updateWeapons → RegisterWeaponUpdate st e = st) ∧
    (g ∉ st.updateWeapons → UnregisterWeaponUpdate st g = st) := by
  refine ⟨?_, ?_, ?_, ?_, ?_, ?_⟩ <;> intro h
  · unfold RegisterNpcTimer; rw [Finset.insert_eq_self.mpr h]
  · unfold UnregisterNpcTimer; rw [Finset.erase_eq_of_not_mem h]
  · unfold RegisterNpcUpdate; rw [Finset.insert_eq_self.mpr h]
  · unfold UnregisterNpcUpdate; rw [Finset.erase_eq_of_not_mem h]
  · unfold RegisterWeaponUpdate; rw [Finset.insert_eq_self.mpr h]
  · unfold UnregisterWeaponUpdate; rw [Finset.erase_eq_of_not_mem h]

/-- Witness for C8 at a concrete state whose registries all hold entity 1:
registering 1 again and unregistering the absent entity 2 change nothing. -/
theorem register_unregister_idempotent_witness :
    RegisterNpcTimer sampleState 1 = sampleState ∧
    UnregisterNpcTimer sampleState 2 = sampleState ∧
    RegisterNpcUpdate sampleState 1 = sampleState ∧
    UnregisterNpcUpdate sampleState 2 = sampleState ∧
    RegisterWeaponUpdate sampleState 1 = sampleState ∧
    UnregisterWeaponUpdate sampleState 2 = sampleState := by
  have h := register_unregister_idempotent sampleState 1 2 1 2 1 2
  exact ⟨h.1 (by decide), h.2.1 (by decide), h.2.2.1 (by decide),
         h.2.2.2.1 (by decide), h.2.2.2.2.1 (by decide), h.2.2.2.2.2 (by decide)⟩

/-- Claim C6: `StopScriptExecution` always leaves the bracket idle
(`_scriptIsRunning = false`) whatever state it starts from, and returns
whether a script was running when it was called. -/
theorem StopScriptExecution_idle (st : EngineState) :
    (StopScriptExecution st).1 = st.scriptIsRunning ∧
    ((StopScriptExecution st).2).scriptIsRunning = false ∧
    (StopScriptExecution st).2 = { st with scriptIsRunning := false } := by
  obtain ⟨cb, del, un, unt, uw, run, t0, err⟩ := st
  cases run <;> simp [StopScriptExecution]

/-- Claim C10: `CreateAction` instantiated with an empty argument pack
violates its `assert(Argc > 0)` for every event name and state: the
zero-argument case is a precondition violation, not a supported call. -/
theorem CreateAction_zero_args (st : EngineState) (n : String) (argsB : Nat) :
    CreateAction st n 0 argsB = Except.error "assertion failed: Argc > 0" := rfl

/-- Claim C4: an event name with no registry entry makes `CreateAction`
return nothing and `ExecuteNpc`/`ExecuteWeapon` return false, in all cases
leaving the engine state (including the script-error view) untouched. -/
theorem unregistered_event_no_op (st : EngineState)
    (invoke : IScriptFunction → Bool × String) (t : Nat) (n : String)
    (argc argsB : Nat) (hargc : 0 < argc) (h : getCallBack st n = none) :
    CreateAction st n argc argsB = Except.ok (none, st) ∧
    ExecuteNpc invoke t st n = (false, st) ∧
    ExecuteWeapon invoke t st n = (false, st) := by
  have hfind : st.callbacks.find? (fun e => e.1 == n) = none := by
    unfold getCallBack at h
    exact Option.map_eq_none'.mp h
  refine ⟨?_, ?_, ?_⟩
  · unfold CreateAction
    rw [if_pos hargc, hfind]
  · unfold ExecuteNpc ExecuteEvent
    rw [h]
  · unfold ExecuteWeapon ExecuteEvent
    rw [h]

/-- Witness for C4 at a concrete state: the unregistered name `onFoo`
yields no action and false execution results with the state unchanged. -/
theorem unregistered_event_no_op_witness :
    CreateAction sampleState "onFoo" 1 0 = Except.ok (none, sampleState) ∧
    ExecuteNpc (fun _ => (true, "")) 3 sampleState "onFoo" = (false, sampleState) ∧
    ExecuteWeapon (fun _ => (true, "")) 3 sampleState "onFoo" = (false, sampleState) :=
  unregistered_event_no_op sampleState (fun _ => (true, "")) 3 "onFoo" 1 0
    (by decide) (by decide)

/-- Claim C7: registering an entity in a periodic registry and
unregistering it before the next `RunScripts` pass guarantees the pass does
not invoke that entity's handler, for each of the three registries. -/
theorem unregister_before_pass_not_invoked (st : EngineState) (npc : TNPC) (w : TWeapon) :
    npc ∉ (RunScriptsInvoked (UnregisterNpcTimer (RegisterNpcTimer st npc) npc)).timerNpcs ∧
    npc ∉ (RunScriptsInvoked (UnregisterNpcUpdate (RegisterNpcUpdate st npc) npc)).updatedNpcs ∧
    w ∉ (RunScriptsInvoked (UnregisterWeaponUpdate (RegisterWeaponUpdate st w) w)).updatedWeapons :=
  ⟨Finset.not_mem_erase npc _, Finset.not_mem_erase npc _, Finset.not_mem_erase w _⟩

end GServer

namespace GServer

/-- Reference count of the cache entry for `source`, as seen by lookup. -/
def cachedRefCount (st : CacheState) (source : String) : Option Nat :=
  (st.cache.find? (fun e => e.1 == source)).map (fun e => e.2.2)

theorem find?_incRefCount (l : List (String × IScriptFunction × Nat)) (s : String) :
    (incRefCount l s).find? (fun e => e.1 == s) =
      (l.find? (fun e => e.1 == s)).map (fun e => (e.1, e.2.1, e.2.2 + 1)) := by
  induction l with
  | nil => rfl
  | cons e l ih =>
    have hcons : incRefCount (e :: l) s =
        (if e.1 == s then (e.1, e.2.1, e.2.2 + 1) else e) :: incRefCount l s := rfl
    rw [hcons]
    by_cases hbe : (e.1 == s) = true
    · rw [if_pos hbe]
      have hL : List.find? (fun x : String × IScriptFunction × Nat => x.1 == s)
          ((e.1, e.2.1, e.2.2 + 1) :: incRefCount l s) = some (e.1, e.2.1, e.2.2 + 1) :=
        List.find?_cons_of_pos _ hbe
      have hR : List.find? (fun x : String × IScriptFunction × Nat => x.1 == s)
          (e :: l) = some e := List.find?_cons_of_pos _ hbe
      rw [hL, hR]
      rfl
    · rw [if_neg hbe]
      have hL : List.find? (fun x : String × IScriptFunction × Nat => x.1 == s)
          (e :: incRefCount l s) =
          List.find? (fun x : String × IScriptFunction × Nat => x.1 == s)
            (incRefCount l s) := List.find?_cons_of_neg _ hbe
      have hR : List.find? (fun x : String × IScriptFunction × Nat => x.1 == s)
          (e :: l) =
          List.find? (fun x : String × IScriptFunction × Nat => x.1 == s) l :=
        List.find?_cons_of_neg _ hbe
      rw [hL, hR]
      exact ih

/-- Claim C1: compiling the same source twice through `CompileCache` with
caching enabled returns the same unit identity the second time, increments
the visible reference count of the cache entry by one, and does not invoke
the underlying compiler again. -/
theorem CompileCache_second_hit (ok : String → Bool) (st : CacheState) (s : String)
    (hok : ok s = true) :
    (CompileCache ok (CompileCache ok st s true).2 s true).1 =
      (CompileCache ok st s true).1 ∧
    (∃ rc, cachedRefCount (CompileCache ok st s true).2 s = some rc ∧
      cachedRefCount (CompileCache ok (CompileCache ok st s true).2 s true).2 s =
        some (rc + 1)) ∧
    (CompileCache ok (CompileCache ok st s true).2 s true).2.compilerCalls =
      (CompileCache ok st s true).2.compilerCalls := by
  cases hf : st.cache.find? (fun e => e.1 == s) with
  | some e =>
    have h1 : CompileCache ok st s true =
        (some e.2.1, { st with cache := incRefCount st.cache s }) := by
      simp [CompileCache, hf]
    have hf1 : ({ st with cache := incRefCount st.cache s } : CacheState).cache.find?
        (fun x => x.1 == s) = some (e.1, e.2.1, e.2.2 + 1) := by
      show (incRefCount st.cache s).find?
        (fun (x : String × IScriptFunction × Nat) => x.1 == s) = _
      rw [find?_incRefCount, hf]
      rfl
    have h2 : CompileCache ok ({ st with cache := incRefCount st.cache s }) s true =
        (some e.2.1,
         { st with cache := incRefCount (incRefCount st.cache s) s }) := by
      simp [CompileCache, hf1]
    rw [h1, h2]
    refine ⟨rfl, ⟨e.2.2 + 1, ?_, ?_⟩, rfl⟩
    · show cachedRefCount ({ st with cache := incRefCount st.cache s }) s = _
      unfold cachedRefCount
      rw [hf1]
      rfl
    · unfold cachedRefCount
      show ((incRefCount (incRefCount st.cache s) s).find?
        (fun (x : String × IScriptFunction × Nat) => x.1 == s)).map
        (fun (e : String × IScriptFunction × Nat) => e.2.2) = _
      rw [find?_incRefCount, hf1]
      rfl
  | none =>
    have h1 : CompileCache ok st s true =
        (some st.nextUnit,
         { cache := st.cache ++ [(s, st.nextUnit, 1)],
           compilerCalls := st.compilerCalls + 1,
           nextUnit := st.nextUnit + 1 }) := by
      simp [CompileCache, hf, hok]
    have hf1 : (st.cache ++ [(s, st.nextUnit, 1)]).find? (fun x => x.1 == s) =
        some (s, st.nextUnit, 1) := by
      rw [List.find?_append, hf]
      simp
    have h2 : CompileCache ok
        ({ cache := st.cache ++ [(s, st.nextUnit, 1)],
           compilerCalls := st.compilerCalls + 1,
           nextUnit := st.nextUnit + 1 } : CacheState) s true =
        (some st.nextUnit,
         { cache := incRefCount (st.cache ++ [(s, st.nextUnit, 1)]) s,
           compilerCalls := st.compilerCalls + 1,
           nextUnit := st.nextUnit + 1 }) := by
      simp [CompileCache, hf1]
    rw [h1, h2]
    refine ⟨rfl, ⟨1, ?_, ?_⟩, rfl⟩
    · unfold cachedRefCount
      show ((st.cache ++ [(s, st.nextUnit, 1)]).find?
        (fun (x : String × IScriptFunction × Nat) => x.1 == s)).map
        (fun (e : String × IScriptFunction × Nat) => e.2.2) = _
      rw [hf1]
      rfl
    · unfold cachedRefCount
      show ((incRefCount (st.cache ++ [(s, st.nextUnit, 1)]) s).find?
        (fun (x : String × IScriptFunction × Nat) => x.1 == s)).map
        (fun (e : String × IScriptFunction × Nat) => e.2.2) = _
      rw [find?_incRefCount, hf1]
      rfl

/-- Empty compile cache used to instantiate the C1 theorem. -/
def emptyCache : CacheState := { cache := [], compilerCalls := 0, nextUnit := 0 }

/-- Compiler verdict that accepts every source, used for the C1 witness. -/
def alwaysOk : String → Bool := fun _ => true

/-- Witness for C1 at a concrete input: compiling `"x"` twice from an empty
cache returns the same unit, bumps the reference count from 1 to 2, and
leaves the compiler-call count unchanged between the two calls. -/
theorem CompileCache_second_hit_witness :
    (CompileCache alwaysOk (CompileCache alwaysOk emptyCache "x" true).2 "x" true).1 =
      (CompileCache alwaysOk emptyCache "x" true).1 ∧
    (∃ rc, cachedRefCount (CompileCache alwaysOk emptyCache "x" true).2 "x" =
        some rc ∧
      cachedRefCount (CompileCache alwaysOk
        (CompileCache alwaysOk emptyCache "x" true).2 "x" true).2 "x" =
        some (rc + 1)) ∧
    (CompileCache alwaysOk
        (CompileCache alwaysOk emptyCache "x" true).2 "x" true).2.compilerCalls =
      (CompileCache alwaysOk emptyCache "x" true).2.compilerCalls :=
  CompileCache_second_hit alwaysOk emptyCache "x" rfl

end GServer

namespace GServer

/-- Claim C3 (counterexample): the `TWeapon` wrapping declares `onCreated`
among its handler names and assigns it onto the entity, but with no
definedness guard: line 271 of `CScriptEngine.h` reads
`self.onCreated = onCreated;` and no `if (onCreated)` test occurs anywhere
in the wrapped output, refuting the claim that every kind's wrapping
assigns each declared handler only conditionally. -/
theorem WrapScript_weapon_unconditional :
    "onCreated" ∈ declaredHandlers EntityKind.weapon ∧
    assignsHandler weaponPrologue "onCreated" = true ∧
    conditionallyAssigns weaponPrologue "onCreated" = false ∧
    strContains (WrapScript EntityKind.weapon "") "if (onCreated)" = false := by
  decide

/-- Claim C3 (amended): each wrapped kind produces prologue ++ code ++
epilogue and binds a fixed `self` alias; the NPC prologue declares its nine
handler names as locals and assigns each one conditionally, while the
weapon prologue declares its two handler names and assigns them
unconditionally, and the player prologue declares no handler names. -/
theorem WrapScript_structure (code : String) :
    WrapScript EntityKind.npc code = npcPrologue ++ code ++ wrapEpilogue ∧
    WrapScript EntityKind.player code = playerPrologue ++ code ++ wrapEpilogue ∧
    WrapScript EntityKind.weapon code = weaponPrologue ++ code ++ wrapEpilogue ∧
    strContains npcPrologue
      "var onCreated, onTimeout, onNpcWarped, onPlayerChats, onPlayerEnters, onPlayerLeaves, onPlayerTouchsMe, onPlayerLogin, onPlayerLogout;" = true ∧
    strContains npcPrologue "const self = npc;" = true ∧
    (declaredHandlers EntityKind.npc).all
      (fun h => conditionallyAssigns npcPrologue h) = true ∧
    strContains weaponPrologue "var onCreated, onActionServerSide;" = true ∧
    strContains weaponPrologue "const self = weapon;" = true ∧
    (declaredHandlers EntityKind.weapon).all
      (fun h => assignsHandler weaponPrologue h) = true ∧
    (declaredHandlers EntityKind.weapon).any
      (fun h => conditionallyAssigns weaponPrologue h) = false ∧
    strContains playerPrologue "const self = player;" = true ∧
    declaredHandlers EntityKind.player = [] :=
  ⟨rfl, rfl, rfl, by decide, by decide, by decide, by decide, by decide,
   by decide, by decide, by decide, rfl⟩

/-- Claim C5 (counterexample): in the observable step sequence of
`StartScriptExecution`, the lock-serialized critical section of
`_scriptWatcherLock` contains the `_scriptStartTime` write but not the
`_scriptIsRunning.store(true)`: the `lock_guard` scope ends at line 103 and
the store executes at line 104, after `lockRelease`, so the pair is not
written as one atomic unit serialized by the lock. -/
theorem StartScriptExecution_not_atomic_unit :
    BracketOp.writeStartTime ∈ criticalSectionOps StartScriptExecutionOps ∧
    BracketOp.storeRunning true ∉ criticalSectionOps StartScriptExecutionOps ∧
    BracketOp.storeRunning true ∈ StartScriptExecutionOps := by
  decide

/-- Claim C5 (amended): `StartScriptExecution` records `startTime` inside
the critical section and stores `running = true` only after releasing the
lock; since the store follows the `startTime` write in program order, no
prefix of the step sequence — hence, under sequential consistency, no
watchdog observation — pairs `running = true` with the stale
`startTime`. -/
theorem StartScriptExecution_ordering (old newTime k : Nat) :
    BracketOp.writeStartTime ∈ criticalSectionOps StartScriptExecutionOps ∧
    ((execBracketOps newTime ⟨old, false⟩
        (StartScriptExecutionOps.take k)).scriptIsRunning = true →
      (execBracketOps newTime ⟨old, false⟩
        (StartScriptExecutionOps.take k)).scriptStartTime = newTime) := by
  refine ⟨by decide, ?_⟩
  match k with
  | 0 =>
    intro hr
    simp [execBracketOps, StartScriptExecutionOps, execBracketOp] at hr
  | 1 =>
    intro hr
    simp [execBracketOps, StartScriptExecutionOps, execBracketOp] at hr
  | 2 =>
    intro hr
    simp [execBracketOps, StartScriptExecutionOps, execBracketOp] at hr
  | 3 =>
    intro hr
    simp [execBracketOps, StartScriptExecutionOps, execBracketOp] at hr
  | (n + 4) =>
    intro _
    rw [List.take_of_length_le (by simp [StartScriptExecutionOps])]
    rfl

/-- Witness for the amended C5 at a concrete input: running the whole step
sequence with old `startTime` 3 and new `startTime` 7 ends with `running`
true and the fresh `startTime` 7. -/
theorem StartScriptExecution_ordering_witness :
    (execBracketOps 7 ⟨3, false⟩
      (StartScriptExecutionOps.take 4)).scriptStartTime = 7 :=
  (StartScriptExecution_ordering 3 7 4).2 (by decide)

end GServer
